import Mathlib

/-!
Shallow embedding of `make_docker_images.py` (all_yandasoft), a generator of
Dockerfiles and SLURM batch files for the yandasoft software stack.

Python strings are modelled as Lean `String` (with `List Char` data used for
slicing), Python `None`-able values as `Option`, Python exceptions
(`ValueError`, `TypeError`, ...) as `Except String`, and the program's side
effects (file writes, `subprocess.run` of a docker build, `print`) as an
explicit trace of `Event`s returned next to the `Except` result.
-/

set_option maxRecDepth 100000

namespace MakeDockerImages

/-- Decidable equality for `Except`, used to evaluate results on concrete
inputs. -/
instance {ε α : Type} [DecidableEq ε] [DecidableEq α] : DecidableEq (Except ε α) :=
  fun x y =>
    match x, y with
    | .ok a, .ok b =>
      if h : a = b then isTrue (by rw [h])
      else isFalse (by intro he; cases he; exact h rfl)
    | .ok _, .error _ => isFalse (by intro h; cases h)
    | .error _, .ok _ => isFalse (by intro h; cases h)
    | .error e, .error f =>
      if h : e = f then isTrue (by rw [h])
      else isFalse (by intro he; cases he; exact h rfl)

/-- Trace of observable side effects: a file written with its content, an
external `docker build` invocation, or a line printed to standard output. -/
inductive Event where
  | fileWrite (name content : String)
  | runBuild (cmd : String)
  | printOut (msg : String)
deriving DecidableEq, Repr

/-- Name of the file written by a `fileWrite` event, if any. -/
def Event.writeName : Event → Option String
  | .fileWrite n _ => some n
  | _ => none

/-- Whether the event is an external build-tool invocation. -/
def Event.isBuild : Event → Bool
  | .runBuild _ => true
  | _ => false

/-- Decimal digit character, modelling how Python `str` renders one digit. -/
def digit_char (d : Nat) : Char := Char.ofNat (48 + d)

/-- Fuel-driven accumulator loop producing the decimal digits of `n` in front
of `acc`; fuel `n + 1` always suffices since `n / 10 < n` for `n ≥ 10`. -/
def toDecimalGo : Nat → Nat → List Char → List Char
  | 0, _, acc => acc
  | fuel + 1, n, acc =>
    if n < 10 then digit_char n :: acc
    else toDecimalGo fuel (n / 10) (digit_char (n % 10) :: acc)

/-- Decimal digit list of a natural number, most significant first. -/
def toDecimal (n : Nat) : List Char := toDecimalGo (n + 1) n []

/-- Model of Python `str(n)` for the nonnegative integers this program
manipulates (all version components come from digit parsing). -/
def py_str (n : Nat) : String := String.mk (toDecimal n)

/-- Model of Python `int(s)` on a string of decimal digits. -/
def charsToNat (l : List Char) : Nat :=
  l.foldl (fun a c => a * 10 + (c.toNat - 48)) 0

/-- Source line `forbidden_chars_string = "?!@#$%^&* ;<>?|\"\a\b\f\n\r\t\v"`.
Lean has no `\a`, `\b`, `\f`, `\v` escapes, so those control characters are
written with `\x` escapes (BEL, BS, FF, VT). -/
def forbidden_chars_string : String := "?!@#$%^&* ;<>?|\"\x07\x08\x0c\n\r\t\x0b"

/-- Source line `forbidden_chars = list(forbidden_chars_string)`. -/
def forbidden_chars : List Char := forbidden_chars_string.data

/-- Source function `is_proper_name(name)`: true iff the name is non-empty and
contains none of the forbidden characters.  (The Python `TypeError` on
non-string input is precluded here by the `String` type.) -/
def is_proper_name (name : String) : Bool :=
  if name = "" then false
  else if forbidden_chars.any (fun c => name.data.contains c) then false
  else true

/-- Source function `split_version_number`: the maximal digit runs of the
input (Python `re.findall(r'\d+', input_ver)`), converted to integers when
exactly three runs were found, and `[]` otherwise.  `digitRunsAux` mirrors the
left-to-right scan of the regex engine, accumulating the current run in
reverse. -/
def digitRunsAux : List Char → List Char → List (List Char)
  | [], acc => if acc = [] then [] else [acc.reverse]
  | c :: cs, acc =>
    if c.isDigit then digitRunsAux cs (c :: acc)
    else if acc = [] then digitRunsAux cs []
    else acc.reverse :: digitRunsAux cs []

/-- Maximal digit runs of a character list, in order of appearance. -/
def digitRuns (l : List Char) : List (List Char) := digitRunsAux l []

/-- Source function `split_version_number(input_ver)`. -/
def split_version_number (input_ver : String) : List Nat :=
  let string_list := digitRuns input_ver.data
  if string_list.length = 3 then string_list.map charsToNat
  else []

/-- Source function `compose_version_number(int_list)`: the argument is either
`None` (modelled `none`, the `isinstance(int_list, list)` test fails) or a
list of integers; a dotted string is produced only for exactly three. -/
def compose_version_number (int_list : Option (List Nat)) : String :=
  match int_list with
  | some l =>
    if l.length = 3 then
      py_str (l.getD 0 0) ++ "." ++ py_str (l.getD 1 0) ++ "." ++ py_str (l.getD 2 0)
    else ""
  | none => ""

/-- Source function `get_mpi_type_and_version(mpi_name)`: strict dispatch on
the length of the identifier, then on its `"mpich"` / `"openmpi"` prefix,
parsing the rest (after one separator character) as a three-part version. -/
def get_mpi_type_and_version (mpi_name : String) :
    Except String (String × Option (List Nat)) :=
  let length := mpi_name.length
  if length < 5 then
    .error ("MPI name is too short: " ++ mpi_name)
  else if length = 5 then
    if mpi_name = "mpich" then .ok ("mpich", none)
    else .error ("Expecting mpich: " ++ mpi_name)
  else if length = 6 then
    .error ("Illegal MPI name: " ++ mpi_name)
  else if length = 7 then
    if mpi_name = "openmpi" then .ok ("openmpi", none)
    else .error ("Expecting openmpi: " ++ mpi_name)
  else
    if mpi_name.data.take 5 = "mpich".data then
      let int_ver := split_version_number (String.mk (mpi_name.data.drop 6))
      if int_ver.length = 3 then .ok ("mpich", some int_ver)
      else .error ("Illegal mpich version: " ++ String.mk (mpi_name.data.drop 6))
    else if mpi_name.data.take 7 = "openmpi".data then
      let int_ver := split_version_number (String.mk (mpi_name.data.drop 8))
      if int_ver.length = 3 then .ok ("openmpi", some int_ver)
      else .error ("Illegal openmpi version: " ++ String.mk (mpi_name.data.drop 8))
    else .error ("Illegal MPI name: " ++ mpi_name)

/-- Python class `DockerClass`: holder for a recipe filename, a Docker image
name, and the recipe text, all initialised to the empty string. -/
structure DockerClass where
  recipe_name : String := ""
  image_name : String := ""
  recipe : String := ""
deriving DecidableEq, Repr

/-- Method `set_recipe_name`: set the Dockerfile name after validation. -/
def DockerClass.set_recipe_name (d : DockerClass) (recipe_name : String) :
    Except String DockerClass :=
  if is_proper_name recipe_name then .ok { d with recipe_name := recipe_name }
  else .error ("Illegal recipe_name: " ++ recipe_name)

/-- Method `set_recipe`: set the content of the Dockerfile; the empty string
is rejected.  (The Python `TypeError` branch is precluded by typing.) -/
def DockerClass.set_recipe (d : DockerClass) (recipe : String) :
    Except String DockerClass :=
  if recipe ≠ "" then .ok { d with recipe := recipe }
  else .error "Recipe is empty string"

/-- Method `set_image_name`: set the Docker image name after validation. -/
def DockerClass.set_image_name (d : DockerClass) (image_name : String) :
    Except String DockerClass :=
  if is_proper_name image_name then .ok { d with image_name := image_name }
  else .error ("Illegal image_name: " ++ image_name)

/-- Method `write_recipe`: write the recipe into the Dockerfile, requiring
both the file name and the content to have been set. -/
def DockerClass.write_recipe (d : DockerClass) : Except String Event :=
  if d.recipe_name = "" then .error "Docker recipe file name has not been set"
  else if d.recipe = "" then .error "Docker recipe content has not been set"
  else .ok (.fileWrite d.recipe_name d.recipe)

/-- Method `get_build_command`: the docker build command line, requiring both
the recipe file name and the image name to have been set. -/
def DockerClass.get_build_command (d : DockerClass) : Except String String :=
  if d.recipe_name = "" then .error "Docker recipe file name has not been set"
  else if d.image_name = "" then .error "Docker image file name has not been set"
  else .ok ("docker build --no-cache --pull -t " ++ d.image_name ++ " -f " ++
    d.recipe_name ++ " .")

/-- Method `build_image`: run the build command, after checking that the
recipe file exists on disk (`existing_files` models the directory listing). -/
def DockerClass.build_image (d : DockerClass) (existing_files : List String) :
    Except String Event :=
  match d.get_build_command with
  | .error e => .error e
  | .ok build_command =>
    if d.recipe_name = "" then .error "Docker recipe file name has not been set"
    else if existing_files.contains d.recipe_name then .ok (.runBuild build_command)
    else .error ("Docker recipe file does not exist: " ++ d.recipe_name)

/-- USER SETTINGS: `machine_targets = ["generic"]` (already lower-case, so the
`str.lower` sanitisation is the identity). -/
def machine_targets : List String := ["generic"]

/-- USER SETTINGS: `mpi_targets = ["openmpi-3.1.6"]`. -/
def mpi_targets : List String := ["openmpi-3.1.6"]

/-- USER SETTINGS: `git_branch = "develop"`. -/
def git_branch : String := "develop"

/-- USER SETTINGS: `casacore_ver = "3.3.0"`. -/
def casacore_ver : String := "3.3.0"

/-- Model of the Python `__file__` value used in generated headers. -/
def script_file : String := "./make_docker_images.py"

/-- Header for all automatically generated Dockerfiles. -/
def header : String := "# This file is automatically created by " ++ script_file ++ "\n"

/-- MPI wrapper for g++. -/
def cmake_cxx_compiler : String := "-DCMAKE_CXX_COMPILER=mpicxx"

/-- Installation root passed to the MPICH configure step. -/
def mpi_dir : String := "/usr/local"

/-- Compile flags recorded in the OpenMPI environment and final image. -/
def MPI_COMPILE_FLAGS : String := "-I/usr/local/include -pthread"

/-- Applications to install, as packaged in the base system. -/
def apt_install_items : List String :=
  ["g++", "gfortran", "m4", "autoconf", "automake", "libtool", "flex", "bison",
   "make", "libncurses5-dev", "libreadline-dev", "libopenblas-dev",
   "liblapacke-dev", "libcfitsio-dev", "wcslib-dev", "libhdf5-serial-dev",
   "libfftw3-dev", "libpython2.7-dev", "libpython3-dev", "python-pip",
   "python-numpy", "python-scipy", "libboost-python-dev", "libboost-dev",
   "libboost-filesystem-dev", "libboost-program-options-dev",
   "libboost-signals-dev", "libboost-system-dev", "libboost-thread-dev",
   "libboost-regex-dev", "libcppunit-dev", "git", "libffi-dev", "libgsl-dev",
   "liblog4cxx-dev", "patch", "subversion", "wget", "docker",
   "libxerces-c-dev", "libcurl4-openssl-dev", "xsltproc", "gcovr",
   "libzmq3-dev"]

/-- The apt-get stage of the base recipe, accumulated over
`apt_install_items` exactly as the Python loop does. -/
def apt_install_part : String :=
  (apt_install_items.foldl
    (fun acc item => acc ++ " \\\n" ++ "        " ++ item)
    ("ENV DEBIAN_FRONTEND=\"noninteractive\"\n" ++
     "RUN apt-get update \\\n" ++
     "    && apt-get upgrade -y \\\n" ++
     "    && apt-get autoremove -y \\\n" ++
     "    && apt-get install -y")) ++
  "\\\n" ++ "    && rm -rf /var/lib/apt"

/-- Pinned cmake version used in the base image. -/
def cmake_ver : String := "3.18.4"

/-- Source tarball name for the cmake build stage. -/
def cmake_source : String := "cmake-" ++ cmake_ver ++ ".tar.gz"

/-- Common top part of every base recipe: apt packages plus a cmake build. -/
def common_top_part : String :=
  apt_install_part ++
  "# Build the latest cmake\n" ++
  "RUN mkdir /usr/local/share/cmake\n" ++
  "WORKDIR /usr/local/share/cmake\n" ++
  "RUN wget https://github.com/Kitware/CMake/releases/download/v" ++ cmake_ver ++
    "/" ++ cmake_source ++ " \\\n" ++
  "    && tar -zxf " ++ cmake_source ++ " \\\n" ++
  "    && rm " ++ cmake_source ++ "\n" ++
  "WORKDIR /usr/local/share/cmake/cmake-" ++ cmake_ver ++ "\n" ++
  "RUN ./bootstrap --system-curl \\\n" ++
  "    && make \\\n" ++
  "    && make install\n"

/-- Common bottom part of every base recipe: measures data, casacore and
casarest builds, parameterised by the parallel job count. -/
def common_bottom_part (nproc : Nat) : String :=
  "# Build the latest measures\n" ++
  "RUN mkdir /usr/local/share/casacore \\\n" ++
  "    && mkdir /usr/local/share/casacore/data\n" ++
  "WORKDIR /usr/local/share/casacore/data\n" ++
  "RUN wget ftp://ftp.astron.nl/outgoing/Measures/WSRT_Measures.ztar \\\n" ++
  "    && mv WSRT_Measures.ztar WSRT_Measures.tar.gz \\\n" ++
  "    && tar -zxf WSRT_Measures.tar.gz \\\n" ++
  "    && rm WSRT_Measures.tar.gz \\\n" ++
  "    && mkdir /var/lib/jenkins \\\n" ++
  "    && mkdir /var/lib/jenkins/workspace \n" ++
  "# Build the latest casacore\n" ++
  "WORKDIR /usr/local/share/casacore\n" ++
  "RUN wget https://github.com/casacore/casacore/archive/v" ++ casacore_ver ++
    ".tar.gz \\\n" ++
  "    && tar -xzf v" ++ casacore_ver ++ ".tar.gz\\\n" ++
  "    && rm v" ++ casacore_ver ++ ".tar.gz\n" ++
  "WORKDIR /usr/local/share/casacore/casacore-" ++ casacore_ver ++ "\n" ++
  "RUN mkdir build\n" ++
  "WORKDIR build\n" ++
  "RUN cmake " ++ cmake_cxx_compiler ++
    " -DUSE_FFTW3=ON -DDATA_DIR=/usr/local/share/casacore/data \\\n" ++
  "    -DUSE_OPENMP=ON -DUSE_HDF5=ON -DBUILD_PYTHON=ON -DUSE_THREADS=ON" ++
    " -DCMAKE_BUILD_TYPE=Release .. \\\n" ++
  "    && make -j" ++ py_str nproc ++ " \\\n" ++
  "    && make install\n" ++
  "WORKDIR /usr/local/share/casacore/\n" ++
  "RUN wget https://github.com/steve-ord/casarest/tarball/078f94e \\\n" ++
  "    && tar -xzf 078f94e \\\n" ++
  "    && rm 078f94e\n" ++
  "WORKDIR steve-ord-casarest-078f94e\n" ++
  "RUN mkdir build\n" ++
  "WORKDIR build\n" ++
  "RUN cmake " ++ cmake_cxx_compiler ++ " -DCMAKE_BUILD_TYPE=Release .. \\\n" ++
  "    && make -j" ++ py_str nproc ++ " \\\n" ++
  "    && make install \n" ++
  "WORKDIR /usr/local/share/casacore\n" ++
  "RUN rm -rf casacore \\\n" ++
  "    && rm -rf steve-ord-casarest-078f94e \\\n" ++
  "    && apt-get clean \n"

/-- MPI stage of the base recipe when MPICH version is unspecified: get the
precompiled version. -/
def mpich_default_part : String :=
  "RUN apt-get install -y libmpich-dev\\\n" ++
  "    && rm -rf /var/lib/apt\n"

/-- MPI stage of the base recipe for MPICH at a pinned version: download the
source from the website and build. -/
def mpich_source_part (nproc : Nat) (mpi mpi_ver : String) : String :=
  let web_dir := "https://www.mpich.org/static/downloads/" ++ mpi_ver
  "# Build MPICH\n" ++
  "WORKDIR /home\n" ++
  "RUN wget " ++ web_dir ++ "/" ++ mpi ++ ".tar.gz \\\n" ++
  "    && tar -zxf " ++ mpi ++ ".tar.gz\n" ++
  "    && rm " ++ mpi ++ ".tar.gz \n" ++
  "WORKDIR /home/" ++ mpi ++ "\n" ++
  "RUN ./configure --prefix=" ++ mpi_dir ++ " \\\n" ++
  "    && make -j" ++ py_str nproc ++ " \\\n" ++
  "    && make install \n" ++
  "ENV PATH=$PATH:" ++ mpi_dir ++ "/bin\n" ++
  "ENV LD_LIBRARY_PATH=$LD_LIBRARY_PATH:" ++ mpi_dir ++ "/lib\n"

/-- MPI stage of the base recipe for OpenMPI at a pinned version: the
download directory is keyed on the first two version integers. -/
def openmpi_source_part (nproc : Nat) (mpi : String) (int_ver : List Nat) : String :=
  let ver_dir := "v" ++ py_str (int_ver.getD 0 0) ++ "." ++ py_str (int_ver.getD 1 0)
  let web_dir := "https://download.open-mpi.org/release/open-mpi/" ++ ver_dir
  "# Build OpenMPI\n" ++
  "WORKDIR /home\n" ++
  "RUN wget " ++ web_dir ++ "/" ++ mpi ++ ".tar.gz \\\n" ++
  "    && tar -zxf " ++ mpi ++ ".tar.gz \\\n" ++
  "    && rm " ++ mpi ++ ".tar.gz \n" ++
  "WORKDIR /home/" ++ mpi ++ "\n" ++
  "RUN ./configure --enable-mpi-cxx \\\n" ++
  "    && make all -j" ++ py_str nproc ++ " \\\n" ++
  "    && make install\n" ++
  "ENV PATH=/usr/local/bin:$PATH\n" ++
  "ENV LD_LIBRARY_PATH=/usr/local/lib:$LD_LIBRARY_PATH\n" ++
  "ENV MPI_INCLUDE_PATH=\"/usr/local/include\"\n" ++
  "ENV MPI_LIBRARIES=\"/usr/local/lib\"\n" ++
  "ENV MPI_COMPILE_FLAGS=\"-I/usr/local/include -pthread\"\n"

/-- Machine-dependent part of `make_base_image`: selects the base system,
builds the MPI stage, and sets the recipe and image names.  Returns the
populated target together with the base-system and MPI recipe fragments;
any validation failure aborts with the corresponding Python exception. -/
def base_image_branch (nproc : Nat) (machine : String) (mpi : Option String)
    (prepend append : String) : Except String (DockerClass × String × String) :=
  if machine = "generic" then
    match mpi with
    | none => .error "TypeError: object of type NoneType has no len()"
    | some mpi => do
      let base_system_part := "FROM ubuntu:bionic as buildenv\n"
      let (mpi_type, mpi_num) ← get_mpi_type_and_version mpi
      let mpi_ver := compose_version_number mpi_num
      let mpi_part ←
        if mpi_type = "mpich" then
          if mpi_ver = "" then Except.ok mpich_default_part
          else Except.ok (mpich_source_part nproc mpi mpi_ver)
        else if mpi_type = "openmpi" then
          if mpi_ver = "" then Except.error "OpenMPI version must be specified"
          else
            let int_ver := split_version_number mpi_ver
            Except.ok (openmpi_source_part nproc mpi int_ver)
        else Except.error ("Unknown MPI target: " ++ mpi)
      let mpi_name :=
        match mpi_num with
        | some l => mpi_type ++ py_str (l.getD 0 0)
        | none => mpi_type
      let d ← DockerClass.set_recipe_name {} ("Dockerfile-yandabase-" ++ mpi_name)
      let d ← d.set_image_name (prepend ++ mpi_name ++ append)
      Except.ok (d, base_system_part, mpi_part)
  else if machine = "galaxy" then do
    let base_system_part := "FROM pawsey/mpich-base:3.1.4_ubuntu18.04 as " ++ "buildenv\n"
    let d ← DockerClass.set_recipe_name {} ("Dockerfile-yandabase-" ++ machine)
    let d ← d.set_image_name (prepend ++ machine ++ append)
    Except.ok (d, base_system_part, "")
  else .error ("Unknown machine target: " ++ machine)

/-- Common tail of both image builders: persist the recipe, then either run
the external build (when `actual`) or echo the equivalent build command. -/
def write_and_report (d : DockerClass) (actual : Bool) :
    Except String DockerClass × List Event :=
  match d.write_recipe with
  | .error e => (.error e, [])
  | .ok ev =>
    if actual then
      match d.build_image [d.recipe_name] with
      | .error e => (.error e, [ev])
      | .ok ev2 => (.ok d, [ev, ev2])
    else
      match d.get_build_command with
      | .error e => (.error e, [ev])
      | .ok cmd => (.ok d, [ev, .printOut cmd])

/-- Source function `make_base_image(machine, mpi, prepend, append, actual)`:
make the base image for components that are seldom changed. -/
def make_base_image (nproc : Nat) (machine : String) (mpi : Option String)
    (prepend append : String) (actual : Bool) :
    Except String DockerClass × List Event :=
  match base_image_branch nproc machine mpi prepend append with
  | .error e => (.error e, [])
  | .ok (d, base_system_part, mpi_part) =>
    match d.set_recipe (header ++ base_system_part ++ common_top_part ++
        mpi_part ++ common_bottom_part nproc) with
    | .error e => (.error e, [])
    | .ok d => write_and_report d actual

/-- Downstream build stages of the final image (LOFAR components and
yandasoft), parameterised by the job count and the configured branch. -/
def final_common_part (nproc : Nat) (git_branch : String) : String :=
  let cmake_cxx_flags := "-DCMAKE_CXX_FLAGS=\"" ++ MPI_COMPILE_FLAGS ++
    "\" -DCMAKE_BUILD_TYPE=Release -DENABLE_OPENMP=YES"
  let cmake_build_flags := "-DBUILD_ANALYSIS=OFF -DBUILD_PIPELINE=OFF" ++
    " -DBUILD_COMPONENTS=OFF " ++ "-DBUILD_SERVICES=OFF"
  "# Build LOFAR\n" ++
  "WORKDIR /usr/local/share\n" ++
  "RUN mkdir LOFAR\n" ++
  "WORKDIR /usr/local/share/LOFAR\n" ++
  "RUN git clone https://bitbucket.csiro.au/scm/askapsdp/lofar-common.git\n" ++
  "WORKDIR /usr/local/share/LOFAR/lofar-common\n" ++
  "RUN git checkout develop \n" ++
  "RUN mkdir build\n" ++
  "WORKDIR /usr/local/share/LOFAR/lofar-common/build\n" ++
  "RUN cmake " ++ cmake_cxx_compiler ++ " " ++ cmake_cxx_flags ++ " .. \\\n" ++
  "    && make -j" ++ py_str nproc ++ " \\\n" ++
  "    && make install\n" ++
  "WORKDIR /usr/local/share/LOFAR\n" ++
  "RUN git clone https://bitbucket.csiro.au/scm/askapsdp/lofar-blob.git\n" ++
  "WORKDIR /usr/local/share/LOFAR/lofar-blob\n" ++
  "RUN git checkout develop \n" ++
  "RUN mkdir build\n" ++
  "WORKDIR /usr/local/share/LOFAR/lofar-blob/build\n" ++
  "RUN cmake " ++ cmake_cxx_compiler ++ " " ++ cmake_cxx_flags ++ " .. \\\n" ++
  "    && make -j" ++ py_str nproc ++ " \\\n" ++
  "    && make install\n" ++
  "# Build yandasoft\n" ++
  "WORKDIR /home\n" ++
  "RUN git clone https://gitlab.com/ASKAPSDP/all_yandasoft.git\n" ++
  "WORKDIR /home/all_yandasoft\n" ++
  "RUN git checkout develop \n" ++
  "RUN ./git-do clone\n" ++
  "RUN ./git-do checkout " ++ git_branch ++ "\n" ++
  "RUN mkdir build\n" ++
  "WORKDIR /home/all_yandasoft/build\n" ++
  "RUN cmake " ++ cmake_cxx_compiler ++ " " ++ cmake_cxx_flags ++ " " ++
    cmake_build_flags ++ " .. \\\n" ++
  "    && make -j" ++ py_str nproc ++ " \\\n" ++
  "    && make install\n"

/-- Machine-dependent part of `make_final_image`: names and recipe content
are set in the order of the source (name, recipe, image name). -/
def final_image_branch (nproc : Nat) (git_branch : String) (machine : String)
    (mpi : Option String) (prepend append base_image : String) :
    Except String DockerClass :=
  let base_part := "FROM " ++ base_image ++ " as buildenv\n"
  if machine = "generic" then
    match mpi with
    | none => .error "TypeError: object of type NoneType has no len()"
    | some mpi => do
      let (mpi_type, mpi_num) ← get_mpi_type_and_version mpi
      let mpi_name :=
        match mpi_num with
        | some l => mpi_type ++ py_str (l.getD 0 0)
        | none => mpi_type
      let d ← DockerClass.set_recipe_name {} ("Dockerfile-yandasoft-" ++ mpi_name)
      let d ← d.set_recipe (header ++ base_part ++ final_common_part nproc git_branch)
      let d ← d.set_image_name (prepend ++ mpi_name ++ append)
      Except.ok d
  else if machine = "galaxy" then do
    let d ← DockerClass.set_recipe_name {} ("Dockerfile-yandasoft-" ++ machine)
    let d ← d.set_recipe (header ++ base_part ++ final_common_part nproc git_branch)
    let d ← d.set_image_name (prepend ++ machine ++ append)
    Except.ok d
  else .error ("Unknown machine target: " ++ machine)

/-- Source function `make_final_image(machine, mpi, prepend, append,
base_image, actual)`: make the final image on top of the base image. -/
def make_final_image (nproc : Nat) (git_branch : String) (machine : String)
    (mpi : Option String) (prepend append base_image : String) (actual : Bool) :
    Except String DockerClass × List Event :=
  match final_image_branch nproc git_branch machine mpi prepend append base_image with
  | .error e => (.error e, [])
  | .ok d => write_and_report d actual

/-- Model of the Python comparison `s != None` where `s` is a string value:
always true, whatever the string. -/
def ne_none_str (_s : String) : Bool := true

/-- Resource-request header shared by every generated batch file. -/
def batch_common_part : String :=
  "#!/bin/bash -l\n" ++
  "## This file is automatically created by " ++ script_file ++ "\n" ++
  "#SBATCH --ntasks=5\n" ++
  "##SBATCH --ntasks=305\n" ++
  "#SBATCH --time=02:00:00\n" ++
  "#SBATCH --job-name=cimager\n" ++
  "#SBATCH --export=NONE\n\n" ++
  "module load singularity/3.5.0\n"

/-- Source function `make_batch_file(machine, mpi)`: make a sample SLURM
batch file.  The MPI-specific part is `some`/`none` according to whether the
Python local `batch_mpi_part` gets assigned; an unassigned local would raise
`NameError` at the write, after the filename was printed. -/
def make_batch_file (machine mpi : String) : Except String Unit × List Event :=
  match get_mpi_type_and_version mpi with
  | .error e => (.error e, [])
  | .ok (mpi_type, mpi_num) =>
    let mpi_ver := compose_version_number mpi_num
    let batch_mpi_part : Except String (Option String) :=
      if mpi_type = "mpich" then
        let module := "mpich/3.3.0"
        let image := "yandasoft-mpich_latest.sif"
        .ok (some ("module load " ++ module ++ "\n\n" ++
          "mpirun -n 5 singularity exec " ++ image ++
          " cimager -c dirty.in > dirty_${SLURM_JOB_ID}.log\n"))
      else if mpi_type = "openmpi" then
        if ne_none_str mpi_ver then
          let module := "openmpi/" ++ mpi_ver ++ "-ofed45-gcc"
          let image := "yandasoft-" ++ mpi_ver ++ "_latest.sif"
          .ok (some ("module load " ++ module ++ "\n\n" ++
            "mpirun -n 5 -oversubscribe singularity exec " ++ image ++
            " cimager -c dirty.in > dirty_${SLURM_JOB_ID}.log\n"))
        else .ok none
      else .error ("Unknown MPI target: " ++ mpi)
    match batch_mpi_part with
    | .error e => (.error e, [])
    | .ok partOpt =>
      let batch_file := "sample-" ++ machine ++ "-" ++ mpi ++ ".sbatch"
      match partOpt with
      | none =>
        (.error "NameError: name batch_mpi_part is not defined",
         [.printOut ("Making batch file: " ++ batch_file)])
      | some part =>
        (.ok (),
         [.printOut ("Making batch file: " ++ batch_file),
          .fileWrite batch_file (batch_common_part ++ part)])

/-- Source function `show_targets()`: the lines it prints. -/
def show_targets_events (machine_targets mpi_targets : List String) : List Event :=
  [.printOut "The list of Docker targets: "] ++
  (machine_targets.map (fun machine =>
    [Event.printOut ("- Machine: " ++ machine)] ++
    (if machine = "generic" then
      mpi_targets.map (fun mpi => Event.printOut ("  - MPI: " ++ mpi))
    else []))).flatten ++
  [.printOut "Note that specific machine has a preset MPI target"]

/-- Inner orchestration loop for the generic machine: for each MPI target,
build the base image, wire its image name into the final image, and abort
the whole run on the first error. -/
def run_generic (nproc : Nat) (git_branch : String) (bflag fflag : Bool)
    (base_prepend base_append final_prepend final_append : String) :
    List String → Except String Unit × List Event
  | [] => (.ok (), [])
  | mpi :: rest =>
    match make_base_image nproc "generic" (some mpi) base_prepend base_append bflag with
    | (.error e, evs1) => (.error e, evs1)
    | (.ok docker, evs1) =>
      match make_final_image nproc git_branch "generic" (some mpi) final_prepend
          final_append docker.image_name fflag with
      | (.error e, evs2) => (.error e, evs1 ++ evs2)
      | (.ok _, evs2) =>
        match run_generic nproc git_branch bflag fflag base_prepend base_append
            final_prepend final_append rest with
        | (r, evs3) => (r, evs1 ++ evs2 ++ evs3)

/-- Outer orchestration loop over the machine targets; a specific machine
takes no MPI specification (`None` is passed through). -/
def run_machines (nproc : Nat) (git_branch : String) (bflag fflag : Bool)
    (base_prepend base_append final_prepend final_append : String)
    (mpi_targets : List String) :
    List String → Except String Unit × List Event
  | [] => (.ok (), [])
  | machine :: rest =>
    let step : Except String Unit × List Event :=
      if machine = "generic" then
        run_generic nproc git_branch bflag fflag base_prepend base_append
          final_prepend final_append mpi_targets
      else
        match make_base_image nproc machine none base_prepend base_append bflag with
        | (.error e, evs1) => (.error e, evs1)
        | (.ok docker, evs1) =>
          match make_final_image nproc git_branch machine none final_prepend
              final_append docker.image_name fflag with
          | (.error e, evs2) => (.error e, evs1 ++ evs2)
          | (.ok _, evs2) => (.ok (), evs1 ++ evs2)
    match step with
    | (.error e, evs) => (.error e, evs)
    | (.ok _, evs) =>
      match run_machines nproc git_branch bflag fflag base_prepend base_append
          final_prepend final_append mpi_targets rest with
      | (r, evs') => (r, evs ++ evs')

/-- Source function `main()`: command-line flags select whether to actually
build base and final images or only list the targets; the image-name
prefixes are derived from the configured branch. -/
def main (base_image final_image show_targets_only : Bool)
    (machine_targets mpi_targets : List String) (git_branch : String)
    (nproc : Nat) : Except String Unit × List Event :=
  if show_targets_only then
    (.ok (), show_targets_events machine_targets mpi_targets)
  else
    let base_prepend := "csirocass/yandabase:"
    let final_prepend :=
      if git_branch = "release/1.1.0" then "csirocass/yandasoft:1.1-"
      else if git_branch = "master" then "csirocass/yandasoft:"
      else "csirocass/yandasoft:dev-"
    let base_append := ""
    let final_append := ""
    let evs0 := [Event.printOut
        (if base_image then "Making base images ..." else "Base image will not be made"),
      Event.printOut
        (if final_image then "Making final images ..." else "Final image will not be made")]
    match run_machines nproc git_branch base_image final_image base_prepend
        base_append final_prepend final_append mpi_targets machine_targets with
    | (r, evs) => (r, evs0 ++ evs)

/-- Spec-side reading of "extract all maximal digit runs, in order of
appearance": on a digit, the run is the digit together with the following
digits, and scanning resumes after the run. -/
def maximalDigitRuns : List Char → List (List Char)
  | [] => []
  | c :: cs =>
    if c.isDigit then
      (c :: cs.takeWhile Char.isDigit) ::
        maximalDigitRuns (cs.dropWhile Char.isDigit)
    else maximalDigitRuns cs
termination_by l => l.length
decreasing_by
  · refine Nat.lt_succ_of_le ?_
    induction cs with
    | nil => simp
    | cons c cs ih =>
      by_cases hd : Char.isDigit c
      · rw [List.dropWhile_cons_of_pos hd]
        exact Nat.le_trans ih (by simp)
      · rw [List.dropWhile_cons_of_neg hd]
  · exact Nat.lt_succ_self cs.length

/-- Short MPI label used in recipe filenames and image names: the kind name,
followed by the leading version integer when a version is present. -/
def mpi_label (t : String) (vOpt : Option (List Nat)) : String :=
  match vOpt with
  | some l => t ++ py_str (l.getD 0 0)
  | none => t

/-- Property of a fallible result: it is a raised (fatal) error. -/
def isErr {α : Type} (x : Except String α) : Prop := ∃ e, x = .error e

/-- The forbidden-character set as enumerated by the specification: the ASCII
punctuation `? ! @ # $ % ^ & *`, space, `; < > |`, the double-quote, and the
control characters bell, backspace, form-feed, newline, carriage-return,
tab, vertical-tab. -/
def claim_forbidden_chars : List Char :=
  ['?', '!', '@', '#', '$', '%', '^', '&', '*', ' ', ';', '<', '>', '|', '\x22',
   '\x07', '\x08', '\x0c', '\n', '\r', '\t', '\x0b']

example : split_version_number "3.1.6" = [3, 1, 6] := by decide
example : split_version_number "3.1" = [] := by decide
example : split_version_number "a3b1c6d9" = [] := by decide
example : split_version_number "a3b1c6" = [3, 1, 6] := by decide
example : get_mpi_type_and_version "mpich" = .ok ("mpich", none) := by decide
example : get_mpi_type_and_version "openmpi" = .ok ("openmpi", none) := by decide
example : get_mpi_type_and_version "openmpi-3.1.6" = .ok ("openmpi", some [3, 1, 6]) := by
  decide
example : get_mpi_type_and_version "openmp" = .error ("Illegal MPI name: " ++ "openmp") := by
  decide
example : is_proper_name "" = false := by decide
example : is_proper_name "a b" = false := by decide
example : is_proper_name "ok-name_1" = true := by decide
example : compose_version_number (some [3, 1, 6]) = "3.1.6" := by decide
example : compose_version_number (some [1, 2]) = "" := by decide
example : compose_version_number none = "" := by decide

/-! ### Basic string and digit lemmas -/

theorem str_ne_empty_iff (s : String) : s ≠ "" ↔ s.data ≠ [] := by
  constructor
  · intro h hd
    exact h (String.ext hd)
  · intro h he
    exact h (by rw [he])

theorem append_ne_empty_left {s : String} (t : String) (h : s ≠ "") :
    s ++ t ≠ "" := by
  rw [str_ne_empty_iff] at h ⊢
  rw [String.data_append]
  intro hd
  exact h (List.append_eq_nil.mp hd).1

theorem append_ne_empty_right (s : String) {t : String} (h : t ≠ "") :
    s ++ t ≠ "" := by
  rw [str_ne_empty_iff] at h ⊢
  rw [String.data_append]
  intro hd
  exact h (List.append_eq_nil.mp hd).2

/-- Characterisation of the name validator: a name passes exactly when it is
non-empty and avoids every forbidden character. -/
theorem is_proper_name_iff (s : String) :
    is_proper_name s = true ↔ s ≠ "" ∧ ∀ c ∈ s.data, c ∉ forbidden_chars := by
  unfold is_proper_name
  by_cases h0 : s = ""
  · simp [h0]
  · simp only [h0, if_false, ne_eq, not_false_eq_true, true_and]
    by_cases hany : forbidden_chars.any (fun c => s.data.contains c) = true
    · simp only [hany, if_true, if_false]
      simp only [List.any_eq_true, List.elem_iff] at hany
      obtain ⟨c, hc, hcs⟩ := hany
      constructor
      · intro h; exact absurd h (by simp)
      · intro hall; exact absurd hc (hall c hcs)
    · simp only [hany, if_false, if_true]
      simp only [List.any_eq_true, List.elem_iff, not_exists, not_and] at hany
      constructor
      · intro _ c hc hcf
        exact (hany c hcf) hc
      · intro _; rfl

theorem is_proper_name_ne_empty {s : String} (h : is_proper_name s = true) :
    s ≠ "" :=
  ((is_proper_name_iff s).mp h).1

theorem digit_char_isDigit {d : Nat} (h : d < 10) :
    (digit_char d).isDigit = true := by
  interval_cases d <;> decide

theorem digit_char_sub_val {d : Nat} (h : d < 10) :
    (digit_char d).toNat - 48 = d := by
  interval_cases d <;> decide

theorem isDigit_not_forbidden {c : Char} (h : c.isDigit = true) :
    c ∉ forbidden_chars := by
  intro hc
  have hall : forbidden_chars.all (fun x => !x.isDigit) = true := by decide
  rw [List.all_eq_true] at hall
  have := hall c hc
  rw [h] at this
  exact absurd this (by decide)

/-- Full correctness of the fuel-driven decimal printer: the produced digits
precede the accumulator, are non-empty proper digits, and fold back to `n`
under the decimal evaluation used by `charsToNat`. -/
theorem toDecimalGo_spec :
    ∀ (fuel n : Nat) (acc : List Char), n < fuel →
    ∃ ds, toDecimalGo fuel n acc = ds ++ acc ∧ ds ≠ [] ∧
      (∀ c ∈ ds, c.isDigit = true) ∧
      (∀ a : Nat, ds.foldl (fun a c => a * 10 + (c.toNat - 48)) a =
        a * 10 ^ ds.length + n) := by
  intro fuel
  induction fuel with
  | zero => intro n acc h; omega
  | succ fuel ih =>
    intro n acc h
    by_cases h10 : n < 10
    · refine ⟨[digit_char n], by simp [toDecimalGo, h10], by simp, ?_, ?_⟩
      · intro c hc
        rw [List.mem_singleton] at hc
        rw [hc]
        exact digit_char_isDigit h10
      · intro a
        simp [List.foldl, digit_char_sub_val h10]
    · have hdiv : n / 10 < fuel := by
        have h1 : n / 10 < n := Nat.div_lt_self (by omega) (by omega)
        omega
      obtain ⟨ds, hgo, hne, hdig, hval⟩ := ih (n / 10) (digit_char (n % 10) :: acc) hdiv
      refine ⟨ds ++ [digit_char (n % 10)], ?_, by simp, ?_, ?_⟩
      · rw [toDecimalGo, if_neg h10, hgo, List.append_assoc, List.singleton_append]
      · intro c hc
        rw [List.mem_append] at hc
        rcases hc with hc | hc
        · exact hdig c hc
        · rw [List.mem_singleton] at hc
          rw [hc]
          exact digit_char_isDigit (Nat.mod_lt n (by omega))
      · intro a
        rw [List.foldl_append]
        simp only [List.foldl]
        rw [hval a, digit_char_sub_val (Nat.mod_lt n (by omega))]
        rw [List.length_append, List.length_singleton, pow_succ]
        have := Nat.div_add_mod n 10
        ring_nf
        omega

theorem toDecimal_digits {n : Nat} : ∀ c ∈ toDecimal n, c.isDigit = true := by
  obtain ⟨ds, hgo, _, hdig, _⟩ := toDecimalGo_spec (n + 1) n [] (Nat.lt_succ_self n)
  intro c hc
  rw [toDecimal, hgo, List.append_nil] at hc
  exact hdig c hc

theorem toDecimal_ne_nil {n : Nat} : toDecimal n ≠ [] := by
  obtain ⟨ds, hgo, hne, _, _⟩ := toDecimalGo_spec (n + 1) n [] (Nat.lt_succ_self n)
  rw [toDecimal, hgo, List.append_nil]
  exact hne

theorem charsToNat_toDecimal (n : Nat) : charsToNat (toDecimal n) = n := by
  obtain ⟨ds, hgo, _, _, hval⟩ := toDecimalGo_spec (n + 1) n [] (Nat.lt_succ_self n)
  rw [toDecimal, hgo, List.append_nil, charsToNat, hval 0]
  simp

theorem py_str_data (n : Nat) : (py_str n).data = toDecimal n := rfl

theorem py_str_ne_empty (n : Nat) : py_str n ≠ "" := by
  rw [str_ne_empty_iff, py_str_data]
  exact toDecimal_ne_nil

/-! ### Maximal digit runs: spec-side definition and characterisation -/

theorem digitRunsAux_eq (cs : List Char) : ∀ acc : List Char,
    digitRunsAux cs acc =
      if acc = [] then maximalDigitRuns cs
      else (acc.reverse ++ cs.takeWhile Char.isDigit) ::
        maximalDigitRuns (cs.dropWhile Char.isDigit) := by
  induction cs with
  | nil =>
    intro acc
    by_cases h : acc = [] <;> simp [digitRunsAux, maximalDigitRuns, h]
  | cons c cs ih =>
    intro acc
    by_cases hd : c.isDigit
    · rw [digitRunsAux, if_pos hd, ih (c :: acc)]
      rw [if_neg (by simp)]
      by_cases h : acc = []
      · rw [if_pos h, h]
        rw [maximalDigitRuns, if_pos hd]
        simp
      · rw [if_neg h, List.takeWhile_cons_of_pos hd, List.dropWhile_cons_of_pos hd]
        simp
    · rw [digitRunsAux, if_neg hd]
      by_cases h : acc = []
      · rw [if_pos h, if_pos h, ih [], if_pos rfl]
        rw [maximalDigitRuns, if_neg hd]
      · rw [if_neg h, if_neg h, ih [], if_pos rfl]
        rw [List.takeWhile_cons_of_neg hd, List.dropWhile_cons_of_neg hd]
        rw [maximalDigitRuns, if_neg hd]
        simp

theorem digitRuns_eq_maximalDigitRuns (l : List Char) :
    digitRuns l = maximalDigitRuns l := by
  rw [digitRuns, digitRunsAux_eq l [], if_pos rfl]

theorem takeWhile_append_all {p : Char → Bool} :
    ∀ {A : List Char}, (∀ c ∈ A, p c = true) → ∀ r : List Char,
    (A ++ r).takeWhile p = A ++ r.takeWhile p := by
  intro A
  induction A with
  | nil => intro _ r; simp
  | cons a as ih =>
    intro hA r
    rw [List.cons_append, List.takeWhile_cons_of_pos (hA a (by simp)), List.cons_append]
    rw [ih (fun c hc => hA c (by simp [hc])) r]

theorem dropWhile_append_all {p : Char → Bool} :
    ∀ {A : List Char}, (∀ c ∈ A, p c = true) → ∀ r : List Char,
    (A ++ r).dropWhile p = r.dropWhile p := by
  intro A
  induction A with
  | nil => intro _ r; simp
  | cons a as ih =>
    intro hA r
    rw [List.cons_append, List.dropWhile_cons_of_pos (hA a (by simp))]
    exact ih (fun c hc => hA c (by simp [hc])) r

theorem maximalDigitRuns_all_digits {A : List Char}
    (hA : ∀ c ∈ A, c.isDigit = true) (hne : A ≠ []) :
    maximalDigitRuns A = [A] := by
  cases A with
  | nil => exact absurd rfl hne
  | cons a as =>
    have ha : a.isDigit = true := hA a (by simp)
    rw [maximalDigitRuns, if_pos ha]
    have has : ∀ c ∈ as, Char.isDigit c = true := fun c hc => hA c (by simp [hc])
    have htake : as.takeWhile Char.isDigit = as := by
      have := takeWhile_append_all has []
      simpa using this
    have hdrop : as.dropWhile Char.isDigit = [] := by
      have := dropWhile_append_all has []
      simpa using this
    rw [htake, hdrop, maximalDigitRuns]

theorem maximalDigitRuns_sep {A : List Char} (rest : List Char)
    (hA : ∀ c ∈ A, c.isDigit = true) (hne : A ≠ []) :
    maximalDigitRuns (A ++ '.' :: rest) = A :: maximalDigitRuns rest := by
  cases A with
  | nil => exact absurd rfl hne
  | cons a as =>
    have ha : a.isDigit = true := hA a (by simp)
    have has : ∀ c ∈ as, Char.isDigit c = true := fun c hc => hA c (by simp [hc])
    rw [List.cons_append, maximalDigitRuns, if_pos ha]
    rw [takeWhile_append_all has ('.' :: rest), dropWhile_append_all has ('.' :: rest)]
    rw [List.takeWhile_cons_of_neg (by decide), List.dropWhile_cons_of_neg (by decide)]
    rw [List.append_nil]
    rw [maximalDigitRuns, if_neg (by decide)]

theorem length_three_eq {α : Type} {l : List α} (h : l.length = 3) :
    ∃ a b c, l = [a, b, c] := by
  match l, h with
  | [a, b, c], _ => exact ⟨a, b, c, rfl⟩

/-- Round trip at the core of the version codec: composing three integers
and splitting the result recovers them. -/
theorem split_compose_eq {a b c : Nat} :
    split_version_number (compose_version_number (some [a, b, c])) = [a, b, c] := by
  have hdata : (compose_version_number (some [a, b, c])).data =
      toDecimal a ++ '.' :: (toDecimal b ++ '.' :: toDecimal c) := by
    show (py_str a ++ "." ++ py_str b ++ "." ++ py_str c).data = _
    simp only [String.data_append, py_str_data]
    simp [List.append_assoc]
  rw [split_version_number]
  rw [hdata, digitRuns_eq_maximalDigitRuns]
  rw [maximalDigitRuns_sep _ (fun c hc => toDecimal_digits c hc) toDecimal_ne_nil]
  rw [maximalDigitRuns_sep _ (fun c hc => toDecimal_digits c hc) toDecimal_ne_nil]
  rw [maximalDigitRuns_all_digits (fun c hc => toDecimal_digits c hc) toDecimal_ne_nil]
  simp [charsToNat_toDecimal]

/-! ### Builder-state helper lemmas -/

theorem set_recipe_name_ok {d : DockerClass} {s : String}
    (h : is_proper_name s = true) :
    d.set_recipe_name s = .ok { d with recipe_name := s } := by
  rw [DockerClass.set_recipe_name, if_pos h]

theorem set_image_name_ok {d : DockerClass} {s : String}
    (h : is_proper_name s = true) :
    d.set_image_name s = .ok { d with image_name := s } := by
  rw [DockerClass.set_image_name, if_pos h]

theorem set_recipe_ok {d : DockerClass} {s : String} (h : s ≠ "") :
    d.set_recipe s = .ok { d with recipe := s } := by
  rw [DockerClass.set_recipe, if_pos h]

theorem write_recipe_ok {d : DockerClass} (h1 : d.recipe_name ≠ "")
    (h2 : d.recipe ≠ "") :
    d.write_recipe = .ok (.fileWrite d.recipe_name d.recipe) := by
  rw [DockerClass.write_recipe, if_neg h1, if_neg h2]

theorem get_build_command_ok {d : DockerClass} (h1 : d.recipe_name ≠ "")
    (h2 : d.image_name ≠ "") :
    d.get_build_command = .ok ("docker build --no-cache --pull -t " ++
      d.image_name ++ " -f " ++ d.recipe_name ++ " .") := by
  rw [DockerClass.get_build_command, if_neg h1, if_neg h2]

/-- When no actual build is requested, the common tail writes the recipe file
and echoes the equivalent build command. -/
theorem write_and_report_echo {d : DockerClass} (h1 : d.recipe_name ≠ "")
    (h2 : d.recipe ≠ "") (h3 : d.image_name ≠ "") :
    write_and_report d false =
      (.ok d, [.fileWrite d.recipe_name d.recipe,
        .printOut ("docker build --no-cache --pull -t " ++ d.image_name ++
          " -f " ++ d.recipe_name ++ " .")]) := by
  rw [write_and_report, write_recipe_ok h1 h2]
  simp only [Bool.false_eq_true, if_false]
  rw [get_build_command_ok h1 h3]

/-- The MPI parser only ever reports the kinds mpich and openmpi, and any
version it reports has exactly three components. -/
theorem get_mpi_ok_shape {s t : String} {vOpt : Option (List Nat)}
    (h : get_mpi_type_and_version s = .ok (t, vOpt)) :
    (t = "mpich" ∨ t = "openmpi") ∧ ∀ v, vOpt = some v → v.length = 3 := by
  simp only [get_mpi_type_and_version] at h
  split at h
  · cases h
  · split at h
    · split at h
      · obtain ⟨rfl, rfl⟩ := Prod.mk.injEq .. ▸ Except.ok.inj h
        exact ⟨Or.inl rfl, by intro v hv; cases hv⟩
      · cases h
    · split at h
      · cases h
      · split at h
        · split at h
          · obtain ⟨rfl, rfl⟩ := Prod.mk.injEq .. ▸ Except.ok.inj h
            exact ⟨Or.inr rfl, by intro v hv; cases hv⟩
          · cases h
        · split at h
          · split at h
            · next hlen =>
              obtain ⟨rfl, rfl⟩ := Prod.mk.injEq .. ▸ Except.ok.inj h
              refine ⟨Or.inl rfl, ?_⟩
              intro v hv
              rw [← Option.some.inj hv]
              exact hlen
            · cases h
          · split at h
            · split at h
              · next hlen =>
                obtain ⟨rfl, rfl⟩ := Prod.mk.injEq .. ▸ Except.ok.inj h
                refine ⟨Or.inr rfl, ?_⟩
                intro v hv
                rw [← Option.some.inj hv]
                exact hlen
              · cases h
            · cases h

theorem is_proper_name_append_digits {s : String} (k : Nat)
    (h : is_proper_name s = true) :
    is_proper_name (s ++ py_str k) = true := by
  rw [is_proper_name_iff] at h ⊢
  refine ⟨append_ne_empty_left _ h.1, ?_⟩
  intro c hc
  rw [String.data_append] at hc
  rcases List.mem_append.mp hc with hc | hc
  · exact h.2 c hc
  · rw [py_str_data] at hc
    exact isDigit_not_forbidden (toDecimal_digits c hc)

theorem compose_three_ne_empty {v : List Nat} (hlen : v.length = 3) :
    compose_version_number (some v) ≠ "" := by
  obtain ⟨x, y, z, rfl⟩ := length_three_eq hlen
  show py_str x ++ "." ++ py_str y ++ "." ++ py_str z ≠ ""
  exact append_ne_empty_left _ (append_ne_empty_left _
    (append_ne_empty_left _ (append_ne_empty_left _ (py_str_ne_empty x))))

/-! ### Forward evaluation of the image builders -/

theorem header_ne_empty : header ≠ "" := by decide

theorem base_image_branch_mpich_none {nproc : Nat} {mpi prepend append : String}
    (hparse : get_mpi_type_and_version mpi = .ok ("mpich", none))
    (himg : is_proper_name (prepend ++ "mpich" ++ append) = true) :
    base_image_branch nproc "generic" (some mpi) prepend append =
      .ok ({ recipe_name := "Dockerfile-yandabase-" ++ "mpich",
             image_name := prepend ++ "mpich" ++ append, recipe := "" },
           "FROM ubuntu:bionic as buildenv\n", mpich_default_part) := by
  have h0 : compose_version_number none = "" := rfl
  simp only [base_image_branch, hparse, Bind.bind, Except.bind, String.reduceEq,
    reduceIte, h0,
    set_recipe_name_ok (show is_proper_name ("Dockerfile-yandabase-" ++ "mpich") = true
      by decide),
    set_image_name_ok himg]

theorem base_image_branch_mpich_some {nproc : Nat} {mpi prepend append : String}
    {v : List Nat} (hparse : get_mpi_type_and_version mpi = .ok ("mpich", some v))
    (hlen : v.length = 3)
    (himg : is_proper_name (prepend ++ ("mpich" ++ py_str (v.getD 0 0)) ++ append) = true) :
    base_image_branch nproc "generic" (some mpi) prepend append =
      .ok ({ recipe_name := "Dockerfile-yandabase-" ++ ("mpich" ++ py_str (v.getD 0 0)),
             image_name := prepend ++ ("mpich" ++ py_str (v.getD 0 0)) ++ append,
             recipe := "" },
           "FROM ubuntu:bionic as buildenv\n",
           mpich_source_part nproc mpi (compose_version_number (some v))) := by
  have hne : ¬(compose_version_number (some v) = "") := compose_three_ne_empty hlen
  have hname : is_proper_name ("Dockerfile-yandabase-" ++ ("mpich" ++ py_str (v.getD 0 0))) = true := by
    rw [← String.append_assoc]
    exact is_proper_name_append_digits _ (by decide)
  simp only [base_image_branch, hparse, Bind.bind, Except.bind, String.reduceEq,
    reduceIte, hne, set_recipe_name_ok hname, set_image_name_ok himg]

theorem base_image_branch_openmpi_some {nproc : Nat} {mpi prepend append : String}
    {v : List Nat} (hparse : get_mpi_type_and_version mpi = .ok ("openmpi", some v))
    (hlen : v.length = 3)
    (himg : is_proper_name (prepend ++ ("openmpi" ++ py_str (v.getD 0 0)) ++ append) = true) :
    base_image_branch nproc "generic" (some mpi) prepend append =
      .ok ({ recipe_name := "Dockerfile-yandabase-" ++ ("openmpi" ++ py_str (v.getD 0 0)),
             image_name := prepend ++ ("openmpi" ++ py_str (v.getD 0 0)) ++ append,
             recipe := "" },
           "FROM ubuntu:bionic as buildenv\n",
           openmpi_source_part nproc mpi
             (split_version_number (compose_version_number (some v)))) := by
  have hne : ¬(compose_version_number (some v) = "") := compose_three_ne_empty hlen
  have hname : is_proper_name ("Dockerfile-yandabase-" ++ ("openmpi" ++ py_str (v.getD 0 0))) = true := by
    rw [← String.append_assoc]
    exact is_proper_name_append_digits _ (by decide)
  simp only [base_image_branch, hparse, Bind.bind, Except.bind, String.reduceEq,
    reduceIte, hne, set_recipe_name_ok hname, set_image_name_ok himg]

theorem base_image_branch_openmpi_none {nproc : Nat} {mpi prepend append : String}
    (hparse : get_mpi_type_and_version mpi = .ok ("openmpi", none)) :
    base_image_branch nproc "generic" (some mpi) prepend append =
      .error "OpenMPI version must be specified" := by
  have h0 : compose_version_number none = "" := rfl
  simp only [base_image_branch, hparse, Bind.bind, Except.bind, String.reduceEq,
    reduceIte, h0]

/-- Evaluating `make_base_image` without an actual build: the recipe file is
written and the equivalent build command echoed. -/
theorem make_base_image_echo {nproc : Nat} {mpi prepend append : String}
    {d0 : DockerClass} {bsp mpart : String}
    (hbranch : base_image_branch nproc "generic" (some mpi) prepend append =
      .ok (d0, bsp, mpart))
    (hrn : d0.recipe_name ≠ "") (hin : d0.image_name ≠ "") :
    make_base_image nproc "generic" (some mpi) prepend append false =
      (.ok { d0 with recipe := header ++ bsp ++ common_top_part ++ mpart ++
          common_bottom_part nproc },
       [.fileWrite d0.recipe_name
          (header ++ bsp ++ common_top_part ++ mpart ++ common_bottom_part nproc),
        .printOut ("docker build --no-cache --pull -t " ++ d0.image_name ++
          " -f " ++ d0.recipe_name ++ " .")]) := by
  have hrec : (header ++ bsp ++ common_top_part ++ mpart ++
      common_bottom_part nproc) ≠ "" :=
    append_ne_empty_left _ (append_ne_empty_left _ (append_ne_empty_left _
      (append_ne_empty_left _ header_ne_empty)))
  simp only [make_base_image, hbranch, set_recipe_ok hrec]
  exact @write_and_report_echo { d0 with recipe := header ++ bsp ++
    common_top_part ++ mpart ++ common_bottom_part nproc } hrn hrec hin

theorem final_image_branch_generic {nproc : Nat}
    {git_branch mpi prepend append base_image t : String} {vOpt : Option (List Nat)}
    (hparse : get_mpi_type_and_version mpi = .ok (t, vOpt))
    (hname : is_proper_name ("Dockerfile-yandasoft-" ++ mpi_label t vOpt) = true)
    (himg : is_proper_name (prepend ++ mpi_label t vOpt ++ append) = true) :
    final_image_branch nproc git_branch "generic" (some mpi) prepend append base_image =
      .ok { recipe_name := "Dockerfile-yandasoft-" ++ mpi_label t vOpt,
            image_name := prepend ++ mpi_label t vOpt ++ append,
            recipe := header ++ ("FROM " ++ base_image ++ " as buildenv\n") ++
              final_common_part nproc git_branch } := by
  have hrec : (header ++ ("FROM " ++ base_image ++ " as buildenv\n") ++
      final_common_part nproc git_branch) ≠ "" :=
    append_ne_empty_left _ (append_ne_empty_left _ header_ne_empty)
  simp only [mpi_label] at hname himg
  simp only [final_image_branch, mpi_label, hparse, Bind.bind, Except.bind,
    String.reduceEq, reduceIte, set_recipe_name_ok hname, set_recipe_ok hrec,
    set_image_name_ok himg]

theorem make_final_image_echo {nproc : Nat}
    {git_branch mpi prepend append base_image : String} {d0 : DockerClass}
    (hbranch : final_image_branch nproc git_branch "generic" (some mpi) prepend
      append base_image = .ok d0)
    (hrn : d0.recipe_name ≠ "") (hre : d0.recipe ≠ "") (hin : d0.image_name ≠ "") :
    make_final_image nproc git_branch "generic" (some mpi) prepend append
      base_image false =
      (.ok d0, [.fileWrite d0.recipe_name d0.recipe,
        .printOut ("docker build --no-cache --pull -t " ++ d0.image_name ++
          " -f " ++ d0.recipe_name ++ " .")]) := by
  simp only [make_final_image, hbranch]
  exact write_and_report_echo hrn hre hin

/-! ### Claim theorems -/

/-- C1: for the generic machine with MPI kind openmpi and no version (input
"openmpi"), base-image generation fails fatally with an error and no recipe
file is produced — the event trace is empty and no `BuildTarget` state is
returned, whatever the prefix, suffix, build flag and job count. -/
theorem base_image_openmpi_unversioned_fails (nproc : Nat)
    (prepend append : String) (actual : Bool) :
    (make_base_image nproc "generic" (some "openmpi") prepend append actual).1 =
      .error "OpenMPI version must be specified" ∧
    (make_base_image nproc "generic" (some "openmpi") prepend append actual).2 = [] := by
  have hb := @base_image_branch_openmpi_none nproc "openmpi" prepend append
    (show get_mpi_type_and_version "openmpi" = .ok ("openmpi", none) by decide)
  constructor <;> simp only [make_base_image, hb]

/-- C3 counterexample: for (generic, openmpi-with-no-version) the batch-file
builder does produce output — it succeeds and writes exactly one batch file,
refuting the claim that no batch file with a defined content is written. -/
theorem batch_openmpi_unversioned_writes_file :
    (make_batch_file "generic" "openmpi").1 = .ok () ∧
    (make_batch_file "generic" "openmpi").2.filterMap Event.writeName =
      ["sample-generic-openmpi.sbatch"] := by
  constructor <;> decide

/-- C3 amended: when the MPI kind is openmpi and the version is absent, the
guard `mpi_ver != None` compares a string (here `""`) against `None` and
always succeeds, so the batch-file builder does write a batch file, with the
module and image names interpolated from the empty version string (an empty
version lands between the literal pieces of the module and image names). -/
theorem batch_openmpi_unversioned_behaviour (machine : String) :
    make_batch_file machine "openmpi" =
      (.ok (),
       [.printOut ("Making batch file: " ++
          ("sample-" ++ machine ++ "-" ++ "openmpi" ++ ".sbatch")),
        .fileWrite ("sample-" ++ machine ++ "-" ++ "openmpi" ++ ".sbatch")
          (batch_common_part ++
            ("module load " ++ ("openmpi/" ++ "" ++ "-ofed45-gcc") ++ "\n\n" ++
             "mpirun -n 5 -oversubscribe singularity exec " ++
             ("yandasoft-" ++ "" ++ "_latest.sif") ++
             " cimager -c dirty.in > dirty_${SLURM_JOB_ID}.log\n"))]) := rfl

/-- C4: for any MPI identifier accepted by the parser (other than the
version-less openmpi, which errors out), building the base image derives the
image name as prefix ++ label ++ suffix and the recipe filename as
"Dockerfile-yandabase-" ++ label, where the label is the kind name followed
by the leading version integer when a version triple is present and the
kind name alone otherwise.  Instantiated at (generic, "openmpi-3.1.6",
prefix "p:", suffix "") this gives image name "p:openmpi3" and recipe
filename "Dockerfile-yandabase-openmpi3" (see the witness). -/
theorem base_image_naming (nproc : Nat) (mpi prepend append t : String)
    (vOpt : Option (List Nat))
    (hparse : get_mpi_type_and_version mpi = .ok (t, vOpt))
    (hnotbad : ¬(t = "openmpi" ∧ vOpt = none))
    (himg : is_proper_name (prepend ++ mpi_label t vOpt ++ append) = true) :
    ∃ d evs,
      make_base_image nproc "generic" (some mpi) prepend append false = (.ok d, evs) ∧
      d.image_name = prepend ++ mpi_label t vOpt ++ append ∧
      d.recipe_name = "Dockerfile-yandabase-" ++ mpi_label t vOpt := by
  obtain ⟨ht, hvlen⟩ := get_mpi_ok_shape hparse
  rcases ht with rfl | rfl
  · cases vOpt with
    | none =>
      have hb := @base_image_branch_mpich_none nproc mpi prepend append hparse himg
      exact ⟨_, _, make_base_image_echo hb
        (show ("Dockerfile-yandabase-" ++ "mpich" : String) ≠ "" by decide)
        (is_proper_name_ne_empty himg), rfl, rfl⟩
    | some v =>
      have hb := @base_image_branch_mpich_some nproc mpi prepend append v hparse
        (hvlen v rfl) himg
      exact ⟨_, _, make_base_image_echo hb
        (append_ne_empty_left _ (by decide)) (is_proper_name_ne_empty himg),
        rfl, rfl⟩
  · cases vOpt with
    | none => exact absurd ⟨rfl, rfl⟩ hnotbad
    | some v =>
      have hb := @base_image_branch_openmpi_some nproc mpi prepend append v hparse
        (hvlen v rfl) himg
      exact ⟨_, _, make_base_image_echo hb
        (append_ne_empty_left _ (by decide)) (is_proper_name_ne_empty himg),
        rfl, rfl⟩

/-- C4 witness: the naming rule at (generic, "openmpi-3.1.6", prefix "p:",
suffix ""), giving image name "p:openmpi3" and recipe filename
"Dockerfile-yandabase-openmpi3". -/
theorem base_image_naming_witness :
    ∃ d evs,
      make_base_image 1 "generic" (some "openmpi-3.1.6") "p:" "" false = (.ok d, evs) ∧
      d.image_name = "p:openmpi3" ∧
      d.recipe_name = "Dockerfile-yandabase-openmpi3" := by
  obtain ⟨d, evs, heq, him, hrn⟩ := base_image_naming 1 "openmpi-3.1.6" "p:" ""
    "openmpi" (some [3, 1, 6]) (by decide) (by simp) (by decide)
  exact ⟨d, evs, heq, him.trans (by decide), hrn.trans (by decide)⟩

/-- C6: `split_version_number` returns the integers of the input's maximal
digit runs, in order of appearance, exactly when three such runs exist, and
an empty result otherwise; intervening non-digit text does not prevent a
successful parse (witnessed by the bundled concrete cases). -/
theorem split_version_maximal_runs (s : String) :
    (split_version_number s =
      if (maximalDigitRuns s.data).length = 3 then
        (maximalDigitRuns s.data).map charsToNat
      else []) ∧
    split_version_number "3.1.6" = [3, 1, 6] ∧
    split_version_number "3.1" = [] ∧
    split_version_number "a3b1c6d9" = [] ∧
    split_version_number "a3b1c6" = [3, 1, 6] := by
  refine ⟨?_, by decide, by decide, by decide, by decide⟩
  simp only [split_version_number, digitRuns_eq_maximalDigitRuns]

/-- C7: `compose_version_number` joins exactly three integers with dots, and
returns the empty string (rather than failing) on any other input — a list
of a different length, or the `None` produced when no version is present. -/
theorem compose_version_dispatch (x : Option (List Nat)) :
    compose_version_number x =
      match x with
      | some l => if l.length = 3 then String.intercalate "." (l.map py_str) else ""
      | none => "" := by
  match x with
  | none => rfl
  | some l =>
    by_cases h3 : l.length = 3
    · obtain ⟨a, b, c, rfl⟩ := length_three_eq h3
      show py_str a ++ "." ++ py_str b ++ "." ++ py_str c = _
      simp [String.intercalate, String.intercalate.go]
    · simp [compose_version_number, h3]

/-- C8: `is_proper_name` returns false exactly when the string is empty or
contains a character of the forbidden set enumerated by the specification,
and true for every other string.  (Non-string input is precluded by the
`String` type of the embedding, and the function is pure.) -/
theorem is_proper_name_characterisation (s : String) :
    is_proper_name s = true ↔ s ≠ "" ∧ ∀ c ∈ s.data, c ∉ claim_forbidden_chars := by
  rw [is_proper_name_iff]
  have hset : ∀ c : Char, c ∈ forbidden_chars ↔ c ∈ claim_forbidden_chars := by
    intro c
    constructor
    · intro hc
      have hall : forbidden_chars.all
          (fun x => decide (x ∈ claim_forbidden_chars)) = true := by decide
      rw [List.all_eq_true] at hall
      exact of_decide_eq_true (hall c hc)
    · intro hc
      have hall : claim_forbidden_chars.all
          (fun x => decide (x ∈ forbidden_chars)) = true := by decide
      rw [List.all_eq_true] at hall
      exact of_decide_eq_true (hall c hc)
  constructor
  · rintro ⟨h1, h2⟩
    exact ⟨h1, fun c hc hcf => h2 c hc ((hset c).mpr hcf)⟩
  · rintro ⟨h1, h2⟩
    exact ⟨h1, fun c hc hcf => h2 c hc ((hset c).mp hcf)⟩

/-- C8 witness: the characterisation evaluated at the specification's own
examples. -/
theorem is_proper_name_characterisation_witness :
    is_proper_name "ok-name_1" = true ∧ is_proper_name "a b" ≠ true :=
  ⟨(is_proper_name_characterisation "ok-name_1").mpr (by decide),
   fun h => by
    have := ((is_proper_name_characterisation "a b").mp h).2 ' ' (by decide)
    exact this (by decide)⟩

/-- C2: the MPI-identifier parser dispatches exactly on length and prefix:
length < 5 errors; length 5 succeeds (as `(mpich, none)`) precisely on
"mpich"; length 6 always errors; length 7 succeeds (as `(openmpi, none)`)
precisely on "openmpi"; for longer input the prefix "mpich" (resp.
"openmpi") makes it parse the characters after position 6 (resp. 8) as a
three-integer version, erroring when the version parse fails or when
neither prefix matches. -/
theorem mpi_parser_length_prefix_dispatch (s : String) :
    (s.length < 5 → isErr (get_mpi_type_and_version s)) ∧
    (s.length = 5 →
      (s = "mpich" → get_mpi_type_and_version s = .ok ("mpich", none)) ∧
      (s ≠ "mpich" → isErr (get_mpi_type_and_version s))) ∧
    (s.length = 6 → isErr (get_mpi_type_and_version s)) ∧
    (s.length = 7 →
      (s = "openmpi" → get_mpi_type_and_version s = .ok ("openmpi", none)) ∧
      (s ≠ "openmpi" → isErr (get_mpi_type_and_version s))) ∧
    (7 < s.length →
      (s.data.take 5 = "mpich".data →
        get_mpi_type_and_version s =
          if (split_version_number (String.mk (s.data.drop 6))).length = 3 then
            .ok ("mpich", some (split_version_number (String.mk (s.data.drop 6))))
          else .error ("Illegal mpich version: " ++ String.mk (s.data.drop 6))) ∧
      (s.data.take 5 ≠ "mpich".data → s.data.take 7 = "openmpi".data →
        get_mpi_type_and_version s =
          if (split_version_number (String.mk (s.data.drop 8))).length = 3 then
            .ok ("openmpi", some (split_version_number (String.mk (s.data.drop 8))))
          else .error ("Illegal openmpi version: " ++ String.mk (s.data.drop 8))) ∧
      (s.data.take 5 ≠ "mpich".data → s.data.take 7 ≠ "openmpi".data →
        isErr (get_mpi_type_and_version s))) := by
  refine ⟨?_, ?_, ?_, ?_, ?_⟩
  · intro h
    simp only [get_mpi_type_and_version, if_pos h]
    exact ⟨_, rfl⟩
  · intro h5
    simp only [get_mpi_type_and_version]
    rw [if_neg (by omega), if_pos h5]
    refine ⟨fun hs => by rw [if_pos hs], fun hs => ?_⟩
    rw [if_neg hs]
    exact ⟨_, rfl⟩
  · intro h6
    simp only [get_mpi_type_and_version]
    rw [if_neg (by omega), if_neg (by omega), if_pos h6]
    exact ⟨_, rfl⟩
  · intro h7
    simp only [get_mpi_type_and_version]
    rw [if_neg (by omega), if_neg (by omega), if_neg (by omega), if_pos h7]
    refine ⟨fun hs => by rw [if_pos hs], fun hs => ?_⟩
    rw [if_neg hs]
    exact ⟨_, rfl⟩
  · intro h8
    simp only [get_mpi_type_and_version]
    rw [if_neg (by omega), if_neg (by omega), if_neg (by omega), if_neg (by omega)]
    refine ⟨fun htake => ?_, fun h5 htake => ?_, fun h5 h7 => ?_⟩
    · rw [if_pos htake]
    · rw [if_neg h5, if_pos htake]
    · rw [if_neg h5, if_neg h7]
      exact ⟨_, rfl⟩

/-- C2 witness: the dispatch applied at the specification's own examples —
"open" is too short, "openmp" has the always-erroring length 6, "mpich" and
"openmpi" succeed without a version, "openmpi-3.1.6" parses its version. -/
theorem mpi_parser_length_prefix_dispatch_witness :
    isErr (get_mpi_type_and_version "open") ∧
    get_mpi_type_and_version "mpich" = .ok ("mpich", none) ∧
    isErr (get_mpi_type_and_version "openmp") ∧
    get_mpi_type_and_version "openmpi" = .ok ("openmpi", none) ∧
    get_mpi_type_and_version "openmpi-3.1.6" = .ok ("openmpi", some [3, 1, 6]) :=
  ⟨(mpi_parser_length_prefix_dispatch "open").1 (by decide),
   ((mpi_parser_length_prefix_dispatch "mpich").2.1 (by decide)).1 rfl,
   (mpi_parser_length_prefix_dispatch "openmp").2.2.1 (by decide),
   ((mpi_parser_length_prefix_dispatch "openmpi").2.2.2.1 (by decide)).1 rfl,
   (((mpi_parser_length_prefix_dispatch "openmpi-3.1.6").2.2.2.2 (by decide)).2.1
      (by decide) (by decide)).trans (by decide)⟩

/-- C9: whenever both the recipe name and the image name are set,
`get_build_command` returns exactly the deterministic docker build command,
and when either is unset it fails fatally instead. -/
theorem build_command_contract (d : DockerClass) :
    (d.recipe_name ≠ "" → d.image_name ≠ "" →
      d.get_build_command = .ok ("docker build --no-cache --pull -t " ++
        d.image_name ++ " -f " ++ d.recipe_name ++ " .")) ∧
    (d.recipe_name = "" ∨ d.image_name = "" → isErr d.get_build_command) := by
  refine ⟨fun h1 h2 => get_build_command_ok h1 h2, ?_⟩
  intro h
  rw [DockerClass.get_build_command]
  rcases h with h | h
  · rw [if_pos h]
    exact ⟨_, rfl⟩
  · by_cases hr : d.recipe_name = ""
    · rw [if_pos hr]
      exact ⟨_, rfl⟩
    · rw [if_neg hr, if_pos h]
      exact ⟨_, rfl⟩

/-- C9 witness: the contract applied to a fully populated target and to one
with a missing image name. -/
theorem build_command_contract_witness :
    (DockerClass.mk "r" "i" "").get_build_command =
      .ok "docker build --no-cache --pull -t i -f r ." ∧
    isErr (DockerClass.mk "r" "" "").get_build_command :=
  ⟨((build_command_contract (DockerClass.mk "r" "i" "")).1 (by decide)
      (by decide)).trans (by decide),
   (build_command_contract (DockerClass.mk "r" "" "")).2 (Or.inr rfl)⟩

/-- C10: for every list of exactly three nonnegative integers, splitting the
composed version string recovers the list. -/
theorem split_compose_roundtrip (v : List Nat) (h : v.length = 3) :
    split_version_number (compose_version_number (some v)) = v := by
  obtain ⟨a, b, c, rfl⟩ := length_three_eq h
  exact split_compose_eq

/-- C10 witness: the round trip evaluated at the version 3.1.6. -/
theorem split_compose_roundtrip_witness :
    ([3, 1, 6] : List Nat).length = 3 ∧
    split_version_number (compose_version_number (some [3, 1, 6])) = [3, 1, 6] :=
  ⟨by decide, split_compose_roundtrip [3, 1, 6] (by decide)⟩

/-- C5: running the orchestrator with machine list ["generic"], MPI list
["openmpi-3.1.6"] and neither build flag set succeeds, writes exactly the
two recipe files "Dockerfile-yandabase-openmpi3" and
"Dockerfile-yandasoft-openmpi3" (in that order), performs zero external
build-tool invocations, and prints the equivalent build command for each of
the two targets — for every job count. -/
theorem orchestrator_dry_run (nproc : Nat) :
    (main false false false ["generic"] ["openmpi-3.1.6"] "develop" nproc).1 = .ok () ∧
    (main false false false ["generic"] ["openmpi-3.1.6"] "develop" nproc).2.filterMap
      Event.writeName =
      ["Dockerfile-yandabase-openmpi3", "Dockerfile-yandasoft-openmpi3"] ∧
    (main false false false ["generic"] ["openmpi-3.1.6"] "develop" nproc).2.countP
      Event.isBuild = 0 ∧
    Event.printOut ("docker build --no-cache --pull -t csirocass/yandabase:openmpi3" ++
        " -f Dockerfile-yandabase-openmpi3 .") ∈
      (main false false false ["generic"] ["openmpi-3.1.6"] "develop" nproc).2 ∧
    Event.printOut ("docker build --no-cache --pull -t csirocass/yandasoft:dev-openmpi3" ++
        " -f Dockerfile-yandasoft-openmpi3 .") ∈
      (main false false false ["generic"] ["openmpi-3.1.6"] "develop" nproc).2 := by
  have hb := @base_image_branch_openmpi_some nproc "openmpi-3.1.6"
    "csirocass/yandabase:" "" [3, 1, 6] (by decide) (by decide) (by decide)
  have hbase := make_base_image_echo hb (append_ne_empty_left _ (by decide))
    (append_ne_empty_left _ (append_ne_empty_left _ (by decide)))
  have hf := @final_image_branch_generic nproc "develop" "openmpi-3.1.6"
    "csirocass/yandasoft:dev-" ""
    ("csirocass/yandabase:" ++ ("openmpi" ++ py_str (([3, 1, 6] : List Nat).getD 0 0)) ++ "")
    "openmpi" (some [3, 1, 6]) (by decide) (by decide) (by decide)
  have hfinal := make_final_image_echo hf
    (show ("Dockerfile-yandasoft-" ++ mpi_label "openmpi" (some [3, 1, 6]) : String) ≠ ""
      by decide)
    (append_ne_empty_left _ (append_ne_empty_left _ header_ne_empty))
    (show ("csirocass/yandasoft:dev-" ++ mpi_label "openmpi" (some [3, 1, 6]) ++ "" :
      String) ≠ "" by decide)
  refine ⟨?_, ?_, ?_, ?_, ?_⟩ <;>
    simp only [main, run_machines, run_generic, String.reduceEq, reduceIte,
      Bool.false_eq_true, if_false, hbase, hfinal, List.append_nil, List.nil_append,
      List.cons_append]
  · simp only [List.filterMap_cons, Event.writeName, List.filterMap_nil]
    decide
  · simp only [List.countP_cons, Event.isBuild, List.countP_nil]
    norm_num
  · simp only [List.mem_cons]
    refine Or.inr (Or.inr (Or.inr (Or.inl ?_)))
    decide
  · simp only [List.mem_cons]
    refine Or.inr (Or.inr (Or.inr (Or.inr (Or.inr (Or.inl ?_)))))
    decide

end MakeDockerImages
